import Mathlib

/-!
Verification of the playwright-skill validation-and-orchestration harness.

The definitions below are a shallow embedding of the JavaScript sources:
  - `skills/playwright-skill-tester/scripts/shared/utils.js`
      (command validator: `SAFE_COMMAND_PATTERNS`, `SUSPICIOUS_PATTERNS`,
       `validateCommand`, `validateSingleCommand`, `sanitizeCommand`)
  - `skills/playwright-skill-tester/scripts/detect_test_target.js`
      (`detectTestTarget`)
  - `skills/playwright-skill-tester/scripts/test_commands.js`
      (`findPlaywrightSkill`, `runAllTests` exit behaviour)
  - `skills/playwright-skill-tester/scripts/generate_test_report.js`
      (`runTestSuite`, the totals computed inside `generateMarkdownReport`,
       `main` exit behaviour)

Strings are modelled as `List Char` internally; the JavaScript regular
expressions used by the validator are embedded as lists of regex atoms with an
executable backtracking matcher whose existence-of-a-match semantics coincides
with JavaScript `RegExp.test`.
-/

/-- A character class appearing in one of the validator's regular expressions. -/
inductive CClass where
  /-- JavaScript `\s` (ASCII white space). -/
  | ws
  /-- JavaScript `\d`, i.e. `[0-9]`. -/
  | digit
  /-- JavaScript `.` (anything but a line terminator). -/
  | dot
  /-- `[a-zA-Z]` -/
  | alpha
  /-- `[a-zA-Z_-]` -/
  | nameChar
  /-- `[a-zA-Z0-9_\-\/\.]` -/
  | pathChar
  /-- `[^)]` -/
  | notRParen
  /-- the complement of the backtick character -/
  | notBacktick
  /-- `[^"]` -/
  | notDQuote
  /-- the class of the three quote characters in `eval\s+["'`]` -/
  | quote
deriving DecidableEq, Repr

/-- The backtick character (written via its code point to keep source plain). -/
def backtickChar : Char := Char.ofNat 96

/-- The single-quote character (written via its code point). -/
def squoteChar : Char := Char.ofNat 39

/-- Membership test of a character in a character class. -/
def CClass.test : CClass → Char → Bool
  | .ws, c => c = ' ' || c = '\t' || c = '\n' || c = '\r' || c = '\x0b' || c = '\x0c'
  | .digit, c => c.isDigit
  | .dot, c => c ≠ '\n' && c ≠ '\r'
  | .alpha, c => c.isAlpha
  | .nameChar, c => c.isAlpha || c = '_' || c = '-'
  | .pathChar, c => c.isAlpha || c.isDigit || c = '_' || c = '-' || c = '/' || c = '.'
  | .notRParen, c => c ≠ ')'
  | .notBacktick, c => c ≠ backtickChar
  | .notDQuote, c => c ≠ '"'
  | .quote, c => c = '"' || c = squoteChar || c = backtickChar

/-- One atom of an embedded regular expression. -/
inductive RAtom where
  /-- a literal character (case sensitive) -/
  | lit (c : Char)
  /-- a literal character under the `i` flag (case insensitive) -/
  | liti (c : Char)
  /-- exactly one character of a class -/
  | cls (k : CClass)
  /-- zero or more characters of a class (`*`) -/
  | star (k : CClass)
  /-- one or more characters of a class (`+`) -/
  | plus (k : CClass)
deriving DecidableEq, Repr

/-- Fuel-based matcher core (structural recursion on the fuel, so that the
kernel can evaluate it); every backtracking step strictly decreases
`ps.length + xs.length`, so `ps.length + xs.length + 1` fuel always
suffices (see `rmatch`). -/
def rmatchF (exact : Bool) : Nat → List RAtom → List Char → Bool
  | 0, _, _ => false
  | _ + 1, [], xs => !exact || xs.isEmpty
  | fuel + 1, .lit c :: ps, x :: xs => (x = c) && rmatchF exact fuel ps xs
  | fuel + 1, .liti c :: ps, x :: xs => (x.toLower = c.toLower) && rmatchF exact fuel ps xs
  | fuel + 1, .cls k :: ps, x :: xs => k.test x && rmatchF exact fuel ps xs
  | fuel + 1, .star k :: ps, xs =>
      rmatchF exact fuel ps xs ||
        (match xs with
          | [] => false
          | x :: xs' => k.test x && rmatchF exact fuel (.star k :: ps) xs')
  | fuel + 1, .plus k :: ps, x :: xs => k.test x && rmatchF exact fuel (.star k :: ps) xs
  | _ + 1, _ :: _, [] => false

/-- `rmatch exact ps xs` decides whether the atom sequence `ps` matches a
leading portion of `xs`; with `exact := true` it must consume all of `xs`
(this is the `^...$` anchored form, since JavaScript `$` without the `m` flag
only matches at the very end of the string). -/
def rmatch (exact : Bool) (ps : List RAtom) (xs : List Char) : Bool :=
  rmatchF exact (ps.length + xs.length + 1) ps xs

/-- `rtest ps s` is JavaScript `RegExp.test` for an unanchored pattern: does a
match of `ps` start at some position of `s`? -/
def rtest (ps : List RAtom) : List Char → Bool
  | [] => rmatch false ps []
  | c :: xs => rmatch false ps (c :: xs) || rtest ps xs

/-- Literal atoms for every character of a string (case sensitive). -/
def lits (s : String) : List RAtom := s.toList.map RAtom.lit

/-- Literal atoms for every character of a string under the `i` flag. -/
def litsi (s : String) : List RAtom := s.toList.map RAtom.liti

/-- `SUSPICIOUS_PATTERNS` (utils.js lines 53-64): each blocklist regular
expression together with its `source` string (used in the reason message).
The order is the order of the JavaScript array. -/
def SUSPICIOUS_PATTERNS : List (List RAtom × String) :=
  [ (litsi "rm" ++ [.plus .ws] ++ litsi "-rf", "rm\\s+-rf"),
    ([.lit '>', .star .ws] ++ lits "/dev/null", ">\\s*\\/dev\\/null"),
    (litsi "sudo", "sudo"),
    (litsi "curl" ++ [.plus .ws, .star .dot, .lit '|', .star .ws] ++ litsi "bash",
      "curl\\s+.*\\|\\s*bash"),
    (litsi "wget" ++ [.plus .ws, .star .dot, .lit '|', .star .ws] ++ litsi "bash",
      "wget\\s+.*\\|\\s*bash"),
    (lits "eval" ++ [.plus .ws, .cls .quote],
      "eval\\s+[\"" ++ String.mk [squoteChar, backtickChar] ++ "]"),
    ([.lit ';', .star .ws] ++ litsi "rm" ++ [.plus .ws], ";\\s*rm\\s+"),
    (lits "&&" ++ [.star .ws] ++ litsi "rm" ++ [.plus .ws], "&&\\s*rm\\s+"),
    (lits "$(" ++ [.star .notRParen, .lit ')'], "\\$\\([^)]*\\)"),
    ([.lit backtickChar, .star .notBacktick, .lit backtickChar],
      String.mk [backtickChar] ++ "[^" ++ String.mk [backtickChar] ++ "]*" ++
        String.mk [backtickChar]) ]

/-- `/^node\s+-e\s+"[^"]*"$/` -/
def safeNodeDashE (s : List Char) : Bool :=
  rmatch true (lits "node" ++ [.plus .ws] ++ lits "-e" ++
    [.plus .ws, .lit '"', .star .notDQuote, .lit '"']) s

/-- `/^node\s+run\.js\s+/` (anchored only at the start). -/
def safeNodeRunJs (s : List Char) : Bool :=
  rmatch false (lits "node" ++ [.plus .ws] ++ lits "run.js" ++ [.plus .ws]) s

/-- `/^node\s+scripts\/[a-zA-Z_-]+\.js$/` -/
def safeNodeScripts (s : List Char) : Bool :=
  rmatch true (lits "node" ++ [.plus .ws] ++ lits "scripts/" ++
    [.plus .nameChar] ++ lits ".js") s

/-- `/^npm\s+(install|run\s+setup|run\s+test)$/`, with the alternation
expanded into its three alternatives. -/
def safeNpm (s : List Char) : Bool :=
  rmatch true (lits "npm" ++ [.plus .ws] ++ lits "install") s ||
  rmatch true (lits "npm" ++ [.plus .ws] ++ lits "run" ++ [.plus .ws] ++ lits "setup") s ||
  rmatch true (lits "npm" ++ [.plus .ws] ++ lits "run" ++ [.plus .ws] ++ lits "test") s

/-- `/^cat\s+[a-zA-Z0-9_\-\/\.]+$/` -/
def safeCat (s : List Char) : Bool :=
  rmatch true (lits "cat" ++ [.plus .ws, .plus .pathChar]) s

/-- `/^ls\s+-[a-zA-Z]+\s+[a-zA-Z0-9_\-\/\.]+$/` -/
def safeLs (s : List Char) : Bool :=
  rmatch true (lits "ls" ++ [.plus .ws, .lit '-', .plus .alpha, .plus .ws, .plus .pathChar]) s

/-- `/^bash\s+scripts\/test_[a-zA-Z_-]+\.sh$/` -/
def safeBashTestScript (s : List Char) : Bool :=
  rmatch true (lits "bash" ++ [.plus .ws] ++ lits "scripts/test_" ++
    [.plus .nameChar] ++ lits ".sh") s

/-- The optional chained tail `(\s+&&\s+.+)?` of the two `cd` patterns. -/
def cdChainTail : List RAtom :=
  [.plus .ws] ++ lits "&&" ++ [.plus .ws, .plus .dot]

/-- `/^cd\s+\$SKILL_DIR(\s+&&\s+.+)?$/`, the optional group expanded. -/
def safeCdSkillDir (s : List Char) : Bool :=
  rmatch true (lits "cd" ++ [.plus .ws] ++ lits "$SKILL_DIR") s ||
  rmatch true (lits "cd" ++ [.plus .ws] ++ lits "$SKILL_DIR" ++ cdChainTail) s

/-- `/^cd\s+[a-zA-Z0-9_\-\/\.]+(\s+&&\s+.+)?$/`, the optional group expanded. -/
def safeCdPath (s : List Char) : Bool :=
  rmatch true (lits "cd" ++ [.plus .ws, .plus .pathChar]) s ||
  rmatch true (lits "cd" ++ [.plus .ws, .plus .pathChar] ++ cdChainTail) s

/-- `SAFE_COMMAND_PATTERNS` (utils.js lines 29-48), in array order. -/
def SAFE_COMMAND_PATTERNS : List (List Char → Bool) :=
  [safeNodeDashE, safeNodeRunJs, safeNodeScripts, safeNpm, safeCat, safeLs,
   safeBashTestScript, safeCdSkillDir, safeCdPath]

/-- Does `pat` occur as the leading characters of `s`? -/
def startsW : List Char → List Char → Bool
  | [], _ => true
  | _ :: _, [] => false
  | a :: ps, b :: s => (b = a) && startsW ps s

/-- Case-insensitive variant of `startsW` (for the `i` flag of the counter
regular expressions). -/
def startsWCI : List Char → List Char → Bool
  | [], _ => true
  | _ :: _, [] => false
  | a :: ps, b :: s => (b.toLower = a.toLower) && startsWCI ps s

/-- JavaScript `String.prototype.includes`: does `pat` occur anywhere in `s`? -/
def hasSub (pat : List Char) : List Char → Bool
  | [] => startsW pat []
  | c :: s => startsW pat (c :: s) || hasSub pat s

/-- JavaScript `String.prototype.trim` (restricted to ASCII white space). -/
def trimL (s : List Char) : List Char :=
  ((s.dropWhile (CClass.test .ws)).reverse.dropWhile (CClass.test .ws)).reverse

/-- JavaScript `s.split('&&')`: split at each non-overlapping occurrence of
`&&`, scanning left to right. -/
def splitAmp : List Char → List (List Char)
  | [] => [[]]
  | '&' :: '&' :: rest => [] :: splitAmp rest
  | c :: rest =>
      match splitAmp rest with
      | [] => [[c]]
      | h :: t => (c :: h) :: t

/-- The placeholder token `$SKILL_DIR`. -/
def skillDirTok : List Char := "$SKILL_DIR".toList

/-- JavaScript `command.replace(/\$SKILL_DIR/g, repl)`: replace every
non-overlapping occurrence of the placeholder, scanning left to right.
(The JavaScript replacement string would interpret `$`-sequences; the paths
substituted here contain none.) -/
def replaceSkillDirF (repl : List Char) : Nat → List Char → List Char
  | _, [] => []
  | 0, s => s
  | fuel + 1, c :: rest =>
      if startsW skillDirTok (c :: rest) then
        repl ++ replaceSkillDirF repl fuel (rest.drop 9)
      else
        c :: replaceSkillDirF repl fuel rest

/-- Wrapper supplying sufficient fuel (each step consumes at least one input
character, so the input length bounds the number of steps). -/
def replaceSkillDir (repl : List Char) (s : List Char) : List Char :=
  replaceSkillDirF repl s.length s

/-- The result object of `validateCommand` / `validateSingleCommand`.
A JavaScript result without a `suspicious` field is modelled with
`suspicious := false` (the field is only read through `|| false`). -/
structure ValidationResult where
  valid : Bool
  reason : String
  suspicious : Bool := false
deriving DecidableEq, Repr

/-- The allowlist check of `validateSingleCommand` (utils.js lines 114-126). -/
def validateSingleCommand (s : List Char) : ValidationResult :=
  if SAFE_COMMAND_PATTERNS.any (fun f => f s) then
    { valid := true, reason := "Matches safe pattern" }
  else
    { valid := false, reason := "Command does not match any safe pattern in allowlist" }

/-- The clause loop of the compound branch of `validateCommand`
(utils.js lines 95-102): the first invalid clause's result is returned,
otherwise the compound command is valid. -/
def validateCompound : List (List Char) → ValidationResult
  | [] => { valid := true, reason := "Compound command validated" }
  | p :: ps =>
      let r := validateSingleCommand p
      if r.valid then validateCompound ps else r

/-- The first matching blocklist entry, if any (the loop at
utils.js lines 80-88), yielding its `source` string. -/
def findSuspicious (s : List Char) : Option String :=
  (SUSPICIOUS_PATTERNS.find? (fun p => rtest p.1 s)).map (fun p => p.2)

/-- `validateCommand` (utils.js lines 71-107). The JavaScript falsy test
`!command` on a string argument is the emptiness test. -/
def validateCommand (command : String) : ValidationResult :=
  if command = "" then
    { valid := false, reason := "Command is empty or not a string" }
  else
    let trimmedCommand := trimL command.toList
    match findSuspicious trimmedCommand with
    | some src =>
        { valid := false,
          reason := "Command contains suspicious pattern: " ++ src,
          suspicious := true }
    | none =>
        if hasSub "cd ".toList trimmedCommand && hasSub "&&".toList trimmedCommand then
          validateCompound ((splitAmp trimmedCommand).map trimL)
        else
          validateSingleCommand trimmedCommand

/-- The result object of `sanitizeCommand`. -/
structure SanitizeResult where
  sanitized : Option String
  valid : Bool
  reason : String
  suspicious : Bool
deriving DecidableEq, Repr

/-- The placeholder substitution applied by `sanitizeCommand`. -/
def substSkillDir (command skillPath : String) : String :=
  String.mk (replaceSkillDir skillPath.toList command.toList)

/-- `sanitizeCommand` (utils.js lines 135-156): substitute `$SKILL_DIR`,
then validate the substituted command. -/
def sanitizeCommand (command skillPath : String) : SanitizeResult :=
  if skillPath = "" then
    { sanitized := none
      valid := false
      reason := "Skill path is required for sanitization"
      suspicious := false }
  else
    let sanitized := substSkillDir command skillPath
    let validation := validateCommand sanitized
    { sanitized := some sanitized
      valid := validation.valid
      reason := validation.reason
      suspicious := validation.suspicious }

/-- One entry of the `testSuites` configuration array
(generate_test_report.js lines 35-51). -/
structure TestSuiteSpec where
  name : String
  script : String
  description : String
deriving DecidableEq, Repr

/-- The Path Resolution Tests suite. -/
def suitePathResolution : TestSuiteSpec :=
  { name := "Path Resolution Tests"
    script := "test_path_resolution.js"
    description := "Validates dynamic path resolution functionality" }

/-- The Installation Methods Tests suite. -/
def suiteInstallationMethods : TestSuiteSpec :=
  { name := "Installation Methods Tests"
    script := "test_installation_methods.sh"
    description := "Tests all three installation methods" }

/-- The Command Validation Tests suite. -/
def suiteCommandValidation : TestSuiteSpec :=
  { name := "Command Validation Tests"
    script := "test_commands.js"
    description := "Validates all commands use $SKILL_DIR correctly" }

/-- The fixed suite configuration, in execution order. -/
def testSuites : List TestSuiteSpec :=
  [suitePathResolution, suiteInstallationMethods, suiteCommandValidation]

/-- The `stats` object of a suite result. -/
structure SuiteStats where
  total : Nat
  passed : Nat
  failed : Nat
deriving DecidableEq, Repr

/-- A `TestSuiteResult` as produced by `runTestSuite`; the spawn-error result
has no `exitCode` field in JavaScript, hence the `Option`. -/
structure TestSuiteResult where
  name : String
  description : String
  passed : Bool
  output : String
  stats : SuiteStats
  duration : Nat
  exitCode : Option Nat
  error : Option String := none
deriving DecidableEq, Repr

/-- Reads leading decimal digits into an accumulator (`parseInt` on the
digits captured by `(\d+)`). -/
def takeNum : List Char → Nat → Nat
  | c :: rest, acc =>
      if CClass.test .digit c then takeNum rest (acc * 10 + (c.toNat - 48)) else acc
  | [], acc => acc

/-- `\s*(\d+)`: skip white space, then require at least one digit and read
the number. -/
def numAfterWs (s : List Char) : Option Nat :=
  match s.dropWhile (CClass.test .ws) with
  | c :: rest =>
      if CClass.test .digit c then some (takeNum (c :: rest) 0) else none
  | [] => none

/-- `output.match(/<label>:\s*(\d+)/i)`: the captured number of the leftmost
position where the case-insensitive label is followed by optional white space
and at least one digit (the regex engine resumes the scan when the digits are
missing at one occurrence of the label). -/
def findCounter (label : List Char) : List Char → Option Nat
  | [] => none
  | c :: rest =>
      if startsWCI label (c :: rest) then
        match numAfterWs ((c :: rest).drop label.length) with
        | some n => some n
        | none => findCounter label rest
      else
        findCounter label rest

/-- The `.*:\s*(\d+)` tail of `/Total.*:\s*(\d+)/i`: since `.` cannot cross a
line terminator and `.*` is greedy, the captured number belongs to the last
colon on the current line that is followed by optional white space (which may
cross lines) and at least one digit. -/
def totalTail : List Char → Option Nat
  | [] => none
  | c :: rest =>
      if c = '\n' || c = '\r' then none
      else
        match totalTail rest with
        | some n => some n
        | none => if c = ':' then numAfterWs rest else none

/-- `output.match(/Total.*:\s*(\d+)/i)`: leftmost occurrence of the label
`Total` from which the greedy tail succeeds. -/
def findTotal : List Char → Option Nat
  | [] => none
  | c :: rest =>
      if startsWCI "total".toList (c :: rest) then
        match totalTail ((c :: rest).drop 5) with
        | some n => some n
        | none => findTotal rest
      else
        findTotal rest

/-- The statistics parsed from the combined output
(generate_test_report.js lines 88-101); a missing counter parses as 0. -/
def parseStats (output : String) : SuiteStats :=
  { total := (findTotal output.toList).getD 0
    passed := (findCounter "passed:".toList output.toList).getD 0
    failed := (findCounter "failed:".toList output.toList).getD 0 }

/-- The outcome of `execPromise` on a suite script: fulfilled (exit code 0),
rejected with an exit code, or an error thrown outside the exec call
(the outer catch of `runTestSuite`, i.e. the suite failed to spawn). -/
inductive ExecOutcome where
  | ok (stdout stderr : String)
  | exitFail (code : Nat) (stdout stderr : String)
  | spawnError (msg : String)
deriving DecidableEq, Repr

/-- The result object built for a completed subprocess
(generate_test_report.js lines 93-105): `passed` comes from the exit code
alone, `stats` from the textual counters alone. -/
def mkCompleted (suite : TestSuiteSpec) (exitCode : Nat) (output : String)
    (duration : Nat) : TestSuiteResult :=
  { name := suite.name
    description := suite.description
    passed := exitCode == 0
    output := output
    stats := parseStats output
    duration := duration
    exitCode := some exitCode
    error := none }

/-- `runTestSuite` (generate_test_report.js lines 54-117). A rejected exec
promise carries `error.code || 1` as the exit code; the combined output is
`stdout + stderr`; a spawn failure is the outer catch (lines 106-116). -/
def runTestSuite (suite : TestSuiteSpec) (outcome : ExecOutcome)
    (duration : Nat) : TestSuiteResult :=
  match outcome with
  | .ok stdout stderr =>
      mkCompleted suite 0 (stdout ++ stderr) duration
  | .exitFail code stdout stderr =>
      mkCompleted suite (if code = 0 then 1 else code) (stdout ++ stderr) duration
  | .spawnError msg =>
      { name := suite.name
        description := suite.description
        passed := false
        output := msg
        stats := { total := 0, passed := 0, failed := 1 }
        duration := 0
        exitCode := none
        error := some msg }

/-- The totals of the aggregated report (the Summary table of
`generateMarkdownReport`); `successRate` models the JavaScript floating-point
percentage as an exact rational. -/
structure ReportTotals where
  suites : Nat
  suitesPassed : Nat
  suitesFailed : Nat
  tests : Nat
  testsPassed : Nat
  testsFailed : Nat
  successRate : ℚ
deriving DecidableEq

/-- The aggregated report. -/
structure TestReport where
  overallPassed : Bool
  totals : ReportTotals
deriving DecidableEq

/-- The aggregation performed inside `generateMarkdownReport`
(generate_test_report.js lines 120-139): `every`, `reduce` over the per-suite
stats, and `totalTests > 0 ? (totalPassed / totalTests) * 100 : 0`. -/
def aggregate (results : List TestSuiteResult) : TestReport :=
  let overallPassed := results.all (fun r => r.passed)
  let totalTests := results.foldl (fun sum r => sum + r.stats.total) 0
  let totalPassed := results.foldl (fun sum r => sum + r.stats.passed) 0
  let totalFailed := results.foldl (fun sum r => sum + r.stats.failed) 0
  { overallPassed := overallPassed
    totals :=
      { suites := results.length
        suitesPassed := (results.filter (fun r => r.passed)).length
        suitesFailed := (results.filter (fun r => !r.passed)).length
        tests := totalTests
        testsPassed := totalPassed
        testsFailed := totalFailed
        successRate :=
          if totalTests > 0 then ((totalPassed : ℚ) / (totalTests : ℚ)) * 100 else 0 } }

/-- JavaScript `Number.prototype.toFixed(1)` as a rational (round half away
from zero coincides with `round` on the non-negative rates arising here). -/
def toFixed1 (q : ℚ) : ℚ := (round (q * 10) : ℤ) / 10

/-- The final exit of `main` in generate_test_report.js (lines 265-279):
0 when every suite passed, otherwise 1. -/
def reportExitCode (results : List TestSuiteResult) : Nat :=
  if results.all (fun r => r.passed) then 0 else 1

/-- The behaviour of `main` around the optional dependency-setup step
(generate_test_report.js lines 201-225): a setup failure only logs a warning
and continues with the tests, so the exit code is the one computed from the
suite results regardless of the setup flags. -/
def mainExitCode (_shouldSetup _setupFailed : Bool)
    (results : List TestSuiteResult) : Nat :=
  reportExitCode results

/-- One candidate installation root (detect_test_target.js). -/
structure InstallationTarget where
  name : String
  path : String
  priority : Bool
deriving DecidableEq, Repr

/-- The result of `detectTestTarget`. -/
structure TestConfig where
  mode : String
  targets : List InstallationTarget
deriving DecidableEq, Repr

/-- Node `path.join` for the argument shapes used by the harness (the left
argument has no trailing separator and the right none leading). -/
def pathJoin (a b : String) : String := a ++ "/" ++ b

/-- Node `path.dirname` for ordinary paths: drop the last `/`-separated
segment (`"."` when there is no separator, `"/"` at the root). -/
def dirname (p : String) : String :=
  match p.toList.reverse.dropWhile (fun c => c ≠ '/') with
  | [] => "."
  | ['/'] => "/"
  | _ :: rest => String.mk rest.reverse

/-- `detectTestTarget` (detect_test_target.js lines 22-75), with the
filesystem abstracted as the predicate `fsExists` and the process state as
`currentDir` / `homeDir`. -/
def detectTestTarget (fsExists : String → Bool) (currentDir homeDir : String) :
    TestConfig :=
  let parentDir := dirname currentDir
  let workspacePlaywrightSkill := pathJoin parentDir "playwright-skill"
  if fsExists (pathJoin workspacePlaywrightSkill "SKILL.md") then
    { mode := "development"
      targets :=
        [ { name := "Workspace (local)"
            path := workspacePlaywrightSkill
            priority := true } ] }
  else
    { mode := "production"
      targets :=
        [ { name := "Plugin System"
            path := pathJoin homeDir
              ".claude/plugins/marketplaces/playwright-skill/skills/playwright-skill"
            priority := true },
          { name := "Manual Global"
            path := pathJoin homeDir ".claude/skills/playwright-skill"
            priority := true },
          { name := "Project-Specific (current)"
            path := pathJoin currentDir ".claude/skills/playwright-skill"
            priority := false },
          { name := "Project-Specific (parent)"
            path := pathJoin parentDir ".claude/skills/playwright-skill"
            priority := false } ] }

/-- The record returned by `findPlaywrightSkill`. -/
structure Installation where
  skillPath : String
  skillMdPath : String
  mode : String
deriving DecidableEq, Repr

/-- `findPlaywrightSkill` (test_commands.js lines 48-63): the first detected
target whose `SKILL.md` manifest exists on disk. -/
def findPlaywrightSkill (fsExists : String → Bool) (currentDir homeDir : String) :
    Option Installation :=
  let testConfig := detectTestTarget fsExists currentDir homeDir
  (testConfig.targets.find? (fun t => fsExists (pathJoin t.path "SKILL.md"))).map
    (fun t =>
      { skillPath := t.path
        skillMdPath := pathJoin t.path "SKILL.md"
        mode := testConfig.mode })

/-- The exit behaviour of `runAllTests` (test_commands.js lines 242-309):
exit 1 when no installation is found (line 257), otherwise exit 1 exactly
when some sub-test failed (line 308). -/
def runAllTestsExitCode (installation : Option Installation)
    (failedTests : Nat) : Nat :=
  match installation with
  | none => 1
  | some _ => if failedTests > 0 then 1 else 0

/-- The three-suite scenario of the spec's testable properties: per-suite
stats (5,5,0), (6,6,0), (7,6,1), the third suite failing through its exit
code. -/
def scenarioResults : List TestSuiteResult :=
  [ runTestSuite suitePathResolution
      (.ok "Total Tests: 5\nPassed: 5\nFailed: 0" "") 120,
    runTestSuite suiteInstallationMethods
      (.ok "Total Tests: 6\nPassed: 6\nFailed: 0" "") 80,
    runTestSuite suiteCommandValidation
      (.exitFail 1 "Total Tests: 7\nPassed: 6\nFailed: 1" "") 95 ]

/-- A filesystem containing exactly the manifest of a sibling
`playwright-skill` checkout (used to exercise development mode). -/
def devFs : String → Bool :=
  fun p => p == "/repo/playwright-skill/SKILL.md"

/-- A filesystem with no manifest anywhere (used to exercise production
mode). -/
def emptyFs : String → Bool := fun _ => false

/-- Auxiliary: `List.foldl` with an additive step is the sum of the mapped
list. -/
theorem foldl_add_map {α : Type _} (f : α → Nat) :
    ∀ (l : List α) (n : Nat), l.foldl (fun s r => s + f r) n = n + (l.map f).sum := by
  intro l
  induction l with
  | nil => intro n; simp
  | cons x xs ih =>
    intro n
    simp only [List.foldl_cons, List.map_cons, List.sum_cons, ih]
    omega

/-- Auxiliary: a successful `List.find?` returns the first element
satisfying the predicate: everything before it fails the predicate. -/
theorem find_first_split {α : Type _} (p : α → Bool) :
    ∀ (l : List α) (a : α), l.find? p = some a →
      p a = true ∧ ∃ pre post, l = pre ++ a :: post ∧ ∀ x ∈ pre, p x = false := by
  intro l
  induction l with
  | nil => intro a h; simp [List.find?] at h
  | cons x xs ih =>
    intro a h
    cases hpx : p x with
    | true =>
        rw [List.find?_cons_of_pos _ hpx] at h
        cases h
        exact ⟨hpx, [], xs, rfl, by intro y hy; simp at hy⟩
    | false =>
        rw [List.find?_cons_of_neg _ (by simp [hpx])] at h
        obtain ⟨hpa, pre, post, hsplit, hpre⟩ := ih a h
        refine ⟨hpa, x :: pre, post, by rw [hsplit]; rfl, ?_⟩
        intro y hy
        rcases List.mem_cons.mp hy with rfl | hy2
        · exact hpx
        · exact hpre y hy2

/-- Auxiliary: `validateSingleCommand` never sets the `suspicious` flag. -/
theorem validateSingleCommand_suspicious (s : List Char) :
    (validateSingleCommand s).suspicious = false := by
  unfold validateSingleCommand
  split <;> rfl

/-- Auxiliary: `validateCompound` never sets the `suspicious` flag. -/
theorem validateCompound_suspicious :
    ∀ ps : List (List Char), (validateCompound ps).suspicious = false := by
  intro ps
  induction ps with
  | nil => rfl
  | cons q qs ih =>
    simp only [validateCompound]
    split
    · exact ih
    · exact validateSingleCommand_suspicious q

/-- Auxiliary: definitional unfolding of `validateCommand` (stated once so
that proofs can rewrite with syntactically stable subterms). -/
theorem validateCommand_eq (command : String) :
    validateCommand command =
      (if command = "" then
        { valid := false, reason := "Command is empty or not a string" }
      else
        match findSuspicious (trimL command.toList) with
        | some src =>
            { valid := false,
              reason := "Command contains suspicious pattern: " ++ src,
              suspicious := true }
        | none =>
            if hasSub "cd ".toList (trimL command.toList) &&
                hasSub "&&".toList (trimL command.toList) then
              validateCompound ((splitAmp (trimL command.toList)).map trimL)
            else
              validateSingleCommand (trimL command.toList)) := rfl

/-- Auxiliary: a result of `validateCommand` is never both suspicious and
valid. -/
theorem validateCommand_not_both (command : String) :
    ((validateCommand command).suspicious && (validateCommand command).valid) = false := by
  rw [validateCommand_eq]
  by_cases hc : command = ""
  · simp [hc]
  · rw [if_neg hc]
    cases hfs : findSuspicious (trimL command.toList) with
    | some src => simp
    | none =>
        simp only []
        split
        · simp [validateCompound_suspicious]
        · simp [validateSingleCommand_suspicious]

/-- Auxiliary: if the compound loop reports valid, every clause is
individually valid. -/
theorem validateCompound_valid_parts :
    ∀ ps : List (List Char), (validateCompound ps).valid = true →
      ∀ p ∈ ps, (validateSingleCommand p).valid = true := by
  intro ps
  induction ps with
  | nil => intro _ p hp; simp at hp
  | cons q qs ih =>
    intro h p hp
    simp only [validateCompound] at h
    by_cases hq : (validateSingleCommand q).valid = true
    · rw [if_pos hq] at h
      rcases List.mem_cons.mp hp with rfl | hp2
      · exact hq
      · exact ih h p hp2
    · rw [if_neg hq] at h
      exact absurd h hq

/-- C3: every command whose trimmed form matches a blocklist pattern is
rejected by `validateCommand` with `valid = false`, `suspicious = true` and
the matched pattern's source as the reason; the blocklist is consulted before
the allowlist, so this holds for every such command, also when an allowlist
pattern would match it. -/
theorem C3_blocklist_first (command : String) (hne : command ≠ "")
    (hmatch : SUSPICIOUS_PATTERNS.any (fun p => rtest p.1 (trimL command.toList)) = true) :
    (validateCommand command).valid = false ∧
    (validateCommand command).suspicious = true ∧
    ∃ p ∈ SUSPICIOUS_PATTERNS, rtest p.1 (trimL command.toList) = true ∧
      (validateCommand command).reason =
        "Command contains suspicious pattern: " ++ p.2 := by
  have hex : ∃ p ∈ SUSPICIOUS_PATTERNS, rtest p.1 (trimL command.toList) = true := by
    simpa using List.any_eq_true.mp hmatch
  have hsome : (SUSPICIOUS_PATTERNS.find?
      (fun p => rtest p.1 (trimL command.toList))).isSome := by
    rw [List.find?_isSome]
    obtain ⟨p, hp, hpt⟩ := hex
    exact ⟨p, hp, hpt⟩
  obtain ⟨q, hq⟩ := Option.isSome_iff_exists.mp hsome
  have hqmem : q ∈ SUSPICIOUS_PATTERNS := List.mem_of_find?_eq_some hq
  have hqtest : rtest q.1 (trimL command.toList) = true := by
    have h3 := (find_first_split (fun p => rtest p.1 (trimL command.toList))
      SUSPICIOUS_PATTERNS q hq).1
    simpa using h3
  have hfs : findSuspicious (trimL command.toList) = some q.2 := by
    unfold findSuspicious
    rw [hq]
    rfl
  rw [validateCommand_eq, if_neg hne, hfs]
  exact ⟨rfl, rfl, q, hqmem, hqtest, rfl⟩

/-- C3 witness: `"rm -rf /tmp/x"` matches the first blocklist pattern and is
rejected as suspicious. -/
theorem C3_blocklist_first_witness :
    (validateCommand "rm -rf /tmp/x").valid = false ∧
    (validateCommand "rm -rf /tmp/x").suspicious = true ∧
    ∃ p ∈ SUSPICIOUS_PATTERNS, rtest p.1 (trimL "rm -rf /tmp/x".toList) = true ∧
      (validateCommand "rm -rf /tmp/x").reason =
        "Command contains suspicious pattern: " ++ p.2 :=
  C3_blocklist_first "rm -rf /tmp/x" (by decide) (by decide)

/-- C4: for a compound command (one containing `cd ` and `&&` after
trimming), `validateCommand` can only report `valid = true` when every
`&&`-separated, trimmed clause individually passes `validateSingleCommand`;
and the concrete compound `"cd /x && rm -rf /"`, whose first clause is valid
and whose second is not, is rejected overall. -/
theorem C4_compound_requires_all_clauses :
    (∀ command : String,
        hasSub "cd ".toList (trimL command.toList) = true →
        hasSub "&&".toList (trimL command.toList) = true →
        (validateCommand command).valid = true →
        ∀ part ∈ (splitAmp (trimL command.toList)).map trimL,
          (validateSingleCommand part).valid = true) ∧
    (validateCommand "cd /x && rm -rf /").valid = false := by
  constructor
  · intro command h1 h2 hvalid part hpart
    by_cases hc : command = ""
    · rw [validateCommand_eq, if_pos hc] at hvalid
      simp at hvalid
    · rw [validateCommand_eq, if_neg hc] at hvalid
      cases hfs : findSuspicious (trimL command.toList) with
      | some src =>
          rw [hfs] at hvalid
          simp at hvalid
      | none =>
          rw [hfs] at hvalid
          rw [if_pos (by rw [h1, h2]; rfl)] at hvalid
          exact validateCompound_valid_parts _ hvalid part hpart
  · decide

/-- C4 witness: the compound `"cd /x && npm install"` validates, and its
second clause is indeed individually valid. -/
theorem C4_compound_requires_all_clauses_witness :
    (validateSingleCommand "npm install".toList).valid = true :=
  C4_compound_requires_all_clauses.1 "cd /x && npm install" (by decide) (by decide)
    (by decide) "npm install".toList (by decide)

/-- C5: `sanitizeCommand` substitutes every `$SKILL_DIR` occurrence first and
then validates the substituted command (its verdict fields are those of
`validateCommand` on the substituted string); concretely,
`sanitize("cd $SKILL_DIR && npm run setup", "/home/u/.claude/skills/demo")`
resolves to `"cd /home/u/.claude/skills/demo && npm run setup"` and is
valid. -/
theorem C5_sanitize_substitutes_then_validates :
    (∀ command skillPath : String, skillPath ≠ "" →
        (sanitizeCommand command skillPath).sanitized =
          some (substSkillDir command skillPath) ∧
        (sanitizeCommand command skillPath).valid =
          (validateCommand (substSkillDir command skillPath)).valid ∧
        (sanitizeCommand command skillPath).suspicious =
          (validateCommand (substSkillDir command skillPath)).suspicious) ∧
    (sanitizeCommand "cd $SKILL_DIR && npm run setup"
        "/home/u/.claude/skills/demo").sanitized =
      some "cd /home/u/.claude/skills/demo && npm run setup" ∧
    (sanitizeCommand "cd $SKILL_DIR && npm run setup"
        "/home/u/.claude/skills/demo").valid = true := by
  refine ⟨fun command skillPath hne => ?_, by decide, by decide⟩
  unfold sanitizeCommand
  rw [if_neg hne]
  exact ⟨rfl, rfl, rfl⟩

/-- C5 witness: the universal part applied at the concrete scenario input. -/
theorem C5_sanitize_substitutes_then_validates_witness :
    (sanitizeCommand "cd $SKILL_DIR && npm run setup"
        "/home/u/.claude/skills/demo").sanitized =
      some (substSkillDir "cd $SKILL_DIR && npm run setup"
        "/home/u/.claude/skills/demo") :=
  (C5_sanitize_substitutes_then_validates.1 "cd $SKILL_DIR && npm run setup"
    "/home/u/.claude/skills/demo" (by decide)).1

/-- C9: no validation result is ever both suspicious and valid, for
`validateCommand` and for `sanitizeCommand` alike. -/
theorem C9_suspicious_never_valid :
    (∀ command : String,
        ((validateCommand command).suspicious && (validateCommand command).valid) = false) ∧
    (∀ command skillPath : String,
        ((sanitizeCommand command skillPath).suspicious &&
          (sanitizeCommand command skillPath).valid) = false) := by
  refine ⟨validateCommand_not_both, fun command skillPath => ?_⟩
  unfold sanitizeCommand
  by_cases hp : skillPath = ""
  · rw [if_pos hp]
    rfl
  · rw [if_neg hp]
    exact validateCommand_not_both (substSkillDir command skillPath)

/-- C10: a command containing `&&` but no `cd ` is never split into clauses:
`validateCommand` passes the whole trimmed string to the single-command
allowlist check, so `"npm install && npm run test"` is rejected although each
clause on its own is allowlisted. -/
theorem C10_no_split_without_cd :
    (∀ command : String, command ≠ "" →
        findSuspicious (trimL command.toList) = none →
        hasSub "cd ".toList (trimL command.toList) = false →
        validateCommand command = validateSingleCommand (trimL command.toList)) ∧
    (validateCommand "npm install && npm run test").valid = false ∧
    (validateCommand "npm install").valid = true ∧
    (validateCommand "npm run test").valid = true := by
  refine ⟨fun command hne hfs hcd => ?_, by decide, by decide, by decide⟩
  rw [validateCommand_eq, if_neg hne, hfs]
  rw [if_neg (by rw [hcd]; simp)]

/-- C10 witness: the universal part applied at
`"npm install && npm run test"`. -/
theorem C10_no_split_without_cd_witness :
    validateCommand "npm install && npm run test" =
      validateSingleCommand (trimL "npm install && npm run test".toList) :=
  C10_no_split_without_cd.1 "npm install && npm run test" (by decide) (by decide)
    (by decide)

/-- C1: the aggregated report sums the per-suite stats into the totals, the
success rate is 0 for 0 tests and `100 * passed / tests` otherwise, and the
overall verdict is the conjunction of the per-suite `passed` flags; on the
three-suite scenario (5,5,0), (6,6,0), (7,6,1) with the third suite failed,
the totals are 18/17/1, the success rate is 850/9 ≈ 94.4 (94.4 exactly after
`toFixed(1)` rounding), the overall verdict is false, and the process exit
code is 1. -/
theorem C1_aggregate_report :
    (∀ results : List TestSuiteResult,
        (aggregate results).totals.tests =
          (results.map (fun r => r.stats.total)).sum ∧
        (aggregate results).totals.testsPassed =
          (results.map (fun r => r.stats.passed)).sum ∧
        (aggregate results).totals.testsFailed =
          (results.map (fun r => r.stats.failed)).sum ∧
        (aggregate results).totals.successRate =
          (if (aggregate results).totals.tests = 0 then 0
           else 100 * ((aggregate results).totals.testsPassed : ℚ) /
             ((aggregate results).totals.tests : ℚ)) ∧
        (aggregate results).overallPassed = results.all (fun r => r.passed)) ∧
    (aggregate scenarioResults).totals.tests = 18 ∧
    (aggregate scenarioResults).totals.testsPassed = 17 ∧
    (aggregate scenarioResults).totals.testsFailed = 1 ∧
    (aggregate scenarioResults).totals.successRate = 850 / 9 ∧
    toFixed1 (aggregate scenarioResults).totals.successRate = 944 / 10 ∧
    (aggregate scenarioResults).overallPassed = false ∧
    reportExitCode scenarioResults = 1 := by
  have huniv : ∀ results : List TestSuiteResult,
      (aggregate results).totals.tests =
        (results.map (fun r => r.stats.total)).sum ∧
      (aggregate results).totals.testsPassed =
        (results.map (fun r => r.stats.passed)).sum ∧
      (aggregate results).totals.testsFailed =
        (results.map (fun r => r.stats.failed)).sum ∧
      (aggregate results).totals.successRate =
        (if (aggregate results).totals.tests = 0 then 0
         else 100 * ((aggregate results).totals.testsPassed : ℚ) /
           ((aggregate results).totals.tests : ℚ)) ∧
      (aggregate results).overallPassed = results.all (fun r => r.passed) := by
    intro results
    refine ⟨?_, ?_, ?_, ?_, rfl⟩
    · simp only [aggregate]
      rw [foldl_add_map]
      omega
    · simp only [aggregate]
      rw [foldl_add_map]
      omega
    · simp only [aggregate]
      rw [foldl_add_map]
      omega
    · simp only [aggregate]
      by_cases ht : results.foldl (fun sum r => sum + r.stats.total) 0 = 0
      · simp [ht]
      · rw [if_pos (Nat.pos_of_ne_zero ht), if_neg ht]
        ring
  have ht : (aggregate scenarioResults).totals.tests = 18 := by decide
  have hp : (aggregate scenarioResults).totals.testsPassed = 17 := by decide
  have hsr : (aggregate scenarioResults).totals.successRate = 850 / 9 := by
    rw [(huniv scenarioResults).2.2.2.1, ht, hp]
    norm_num
  have hround : toFixed1 ((850 : ℚ) / 9) = 944 / 10 := by
    unfold toFixed1
    have h944 : round ((850 : ℚ) / 9 * 10) = 944 := by
      rw [round_eq]
      rw [Int.floor_eq_iff]
      constructor <;> norm_num
    rw [h944]
    norm_num
  exact ⟨huniv, ht, hp, by decide, hsr, by rw [hsr]; exact hround, by decide, by decide⟩

/-- C2: a suite result's `passed` flag holds exactly when the recorded exit
code is zero, for every outcome and every output text; the textual counters
only populate `stats` (which are identical for identical output regardless of
the exit code); concretely, output printing `Failed: 0` with exit code 1
still yields `passed = false`, and a failing-looking output with exit code 0
yields `passed = true`. -/
theorem C2_exit_code_authoritative :
    (∀ (suite : TestSuiteSpec) (outcome : ExecOutcome) (duration : Nat),
        (runTestSuite suite outcome duration).passed = true ↔
          (runTestSuite suite outcome duration).exitCode = some 0) ∧
    (∀ (suite : TestSuiteSpec) (code : Nat) (stdout stderr : String) (duration : Nat),
        (runTestSuite suite (.exitFail code stdout stderr) duration).stats =
          (runTestSuite suite (.ok stdout stderr) duration).stats ∧
        (runTestSuite suite (.exitFail code stdout stderr) duration).passed = false) ∧
    (runTestSuite suiteCommandValidation
        (.exitFail 1 "Failed: 0\nPassed: 3\nTotal: 3" "") 5).passed = false ∧
    (runTestSuite suiteCommandValidation
        (.exitFail 1 "Failed: 0\nPassed: 3\nTotal: 3" "") 5).stats =
      { total := 3, passed := 3, failed := 0 } ∧
    (runTestSuite suitePathResolution (.ok "Failed: 2\nPassed: 0" "") 5).passed = true ∧
    (runTestSuite suitePathResolution
        (.ok "Failed: 2\nPassed: 0" "") 5).stats.failed = 2 := by
  refine ⟨fun suite outcome duration => ?_, fun suite code o e d => ⟨rfl, ?_⟩,
    by decide, by decide, by decide, by decide⟩
  · cases outcome with
    | ok o e => simp [runTestSuite, mkCompleted]
    | exitFail c o e =>
        by_cases hc : c = 0
        · subst hc
          simp [runTestSuite, mkCompleted]
        · simp [runTestSuite, mkCompleted, hc]
    | spawnError m => simp [runTestSuite]
  · by_cases hc : code = 0
    · subst hc
      simp [runTestSuite, mkCompleted]
    · simp [runTestSuite, mkCompleted, hc]

/-- C8: a suite whose subprocess fails to spawn yields a result with
`passed = false`, stats `{total := 0, passed := 0, failed := 1}`, and the
spawn failure message in the `error` field. -/
theorem C8_spawn_failure_result (suite : TestSuiteSpec) (msg : String)
    (duration : Nat) :
    (runTestSuite suite (.spawnError msg) duration).passed = false ∧
    (runTestSuite suite (.spawnError msg) duration).stats =
      { total := 0, passed := 0, failed := 1 } ∧
    (runTestSuite suite (.spawnError msg) duration).error = some msg :=
  ⟨rfl, rfl, rfl⟩

/-- C6: with a sibling `playwright-skill` directory holding `SKILL.md`,
`detectTestTarget` reports development mode with exactly one priority target;
otherwise it reports production mode with four candidates in fixed order of
which only the first two are priority; and `findPlaywrightSkill` selects the
first listed target whose manifest exists (every earlier target's manifest is
absent). -/
theorem C6_detect_and_select (fs : String → Bool) (cwd home : String) :
    (fs (pathJoin (pathJoin (dirname cwd) "playwright-skill") "SKILL.md") = true →
      detectTestTarget fs cwd home =
        { mode := "development"
          targets :=
            [ { name := "Workspace (local)"
                path := pathJoin (dirname cwd) "playwright-skill"
                priority := true } ] }) ∧
    (fs (pathJoin (pathJoin (dirname cwd) "playwright-skill") "SKILL.md") = false →
      detectTestTarget fs cwd home =
        { mode := "production"
          targets :=
            [ { name := "Plugin System"
                path := pathJoin home
                  ".claude/plugins/marketplaces/playwright-skill/skills/playwright-skill"
                priority := true },
              { name := "Manual Global"
                path := pathJoin home ".claude/skills/playwright-skill"
                priority := true },
              { name := "Project-Specific (current)"
                path := pathJoin cwd ".claude/skills/playwright-skill"
                priority := false },
              { name := "Project-Specific (parent)"
                path := pathJoin (dirname cwd) ".claude/skills/playwright-skill"
                priority := false } ] } ∧
      (detectTestTarget fs cwd home).targets.map (fun t => t.priority) =
        [true, true, false, false]) ∧
    (∀ inst : Installation, findPlaywrightSkill fs cwd home = some inst →
      ∃ t pre post,
        (detectTestTarget fs cwd home).targets = pre ++ t :: post ∧
        inst = { skillPath := t.path
                 skillMdPath := pathJoin t.path "SKILL.md"
                 mode := (detectTestTarget fs cwd home).mode } ∧
        fs (pathJoin t.path "SKILL.md") = true ∧
        ∀ t2 ∈ pre, fs (pathJoin t2.path "SKILL.md") = false) := by
  refine ⟨fun h => ?_, fun h => ?_, fun inst h => ?_⟩
  · simp [detectTestTarget, h]
  · constructor
    · simp [detectTestTarget, h]
    · simp [detectTestTarget, h]
  · unfold findPlaywrightSkill at h
    rw [Option.map_eq_some'] at h
    obtain ⟨t, hfind, hinst⟩ := h
    obtain ⟨hpt, pre, post, hsplit, hpre⟩ :=
      find_first_split _ (detectTestTarget fs cwd home).targets t hfind
    refine ⟨t, pre, post, hsplit, hinst.symm, by simpa using hpt, ?_⟩
    intro t2 ht2
    simpa using hpre t2 ht2

/-- C6 witness: the theorem applied at concrete filesystems exhibiting the
development and the production branch, and the first-match selection at the
development target. -/
theorem C6_detect_and_select_witness :
    detectTestTarget devFs "/repo/playwright-skill-tester" "/home/u" =
      { mode := "development"
        targets :=
          [ { name := "Workspace (local)"
              path := pathJoin (dirname "/repo/playwright-skill-tester")
                "playwright-skill"
              priority := true } ] } ∧
    (detectTestTarget emptyFs "/repo/playwright-skill-tester" "/home/u").targets.map
      (fun t => t.priority) = [true, true, false, false] ∧
    (∃ t pre post,
      (detectTestTarget devFs "/repo/playwright-skill-tester" "/home/u").targets =
        pre ++ t :: post ∧
      ({ skillPath := "/repo/playwright-skill"
         skillMdPath := "/repo/playwright-skill/SKILL.md"
         mode := "development" } : Installation) =
        { skillPath := t.path
          skillMdPath := pathJoin t.path "SKILL.md"
          mode := (detectTestTarget devFs "/repo/playwright-skill-tester" "/home/u").mode } ∧
      devFs (pathJoin t.path "SKILL.md") = true ∧
      ∀ t2 ∈ pre, devFs (pathJoin t2.path "SKILL.md") = false) :=
  ⟨(C6_detect_and_select devFs "/repo/playwright-skill-tester" "/home/u").1 (by decide),
   ((C6_detect_and_select emptyFs "/repo/playwright-skill-tester" "/home/u").2.1
      (by decide)).2,
   (C6_detect_and_select devFs "/repo/playwright-skill-tester" "/home/u").2.2
     { skillPath := "/repo/playwright-skill"
       skillMdPath := "/repo/playwright-skill/SKILL.md"
       mode := "development" } (by decide)⟩

/-- C7 counterexample: when no installation is found, `runAllTests` exits
with code 1, not with the distinct code 2 the claim requires. -/
theorem C7_counterexample_exit_code :
    runAllTestsExitCode (none : Option Installation) 0 = 1 ∧
    runAllTestsExitCode (none : Option Installation) 0 ≠ 2 := by
  decide

/-- C7 (amended): when no candidate installation contains the manifest the
harness exits with code 1 — the same code used for failed test suites, there
is no distinct code 2 — and a dependency-setup failure does not terminate
the run at all: the harness logs a warning, continues with the tests, and
the final exit code (always 0 or 1) is determined solely by the suite
results. -/
theorem C7_amended_exit_codes :
    (∀ failedTests : Nat,
        runAllTestsExitCode (none : Option Installation) failedTests = 1) ∧
    (∀ (inst : Installation) (failedTests : Nat),
        runAllTestsExitCode (some inst) failedTests =
          if failedTests > 0 then 1 else 0) ∧
    (∀ (shouldSetup setupFailed : Bool) (results : List TestSuiteResult),
        mainExitCode shouldSetup setupFailed results = reportExitCode results ∧
        (reportExitCode results = 0 ∨ reportExitCode results = 1)) := by
  refine ⟨fun _ => rfl, fun _ _ => rfl, fun _ _ results => ⟨rfl, ?_⟩⟩
  unfold reportExitCode
  split
  · exact Or.inl rfl
  · exact Or.inr rfl
